/-
Verification of the NFL data application's refresh/query pipeline spec
against the repository source.

Shallow embedding conventions:
- JavaScript numbers are modelled as exact rationals (ℚ).  Every constant
  appearing in the source (0.04, 0.1, 4, 6, ...) is an exact decimal, and the
  divergences proved below (one-decimal rounding, the PPR multiplier domain)
  are far larger than double-precision error, so the idealization is faithful
  for every statement made here.
- A possibly-missing (undefined/null) JS field is an `Option ℚ`; the JS
  pattern `(x || 0)` becomes `Option.getD x 0` (`jsOrZero`).
- JS `Map` objects are modelled as functions `String → Option _` with
  pointwise update; `Date.now()` is an explicit `Nat` clock argument.
- Fallible operations return `Except`.
-/
import Mathlib

namespace NflData

/-! ## Player stat records (frontend `dataUtils`, src/unnamed/part_003)

`dataUtils.calculateFantasyPoints(player, isPPR)` reads nine numeric fields
off the player object, each defaulted to 0 when missing. -/

structure PlayerStats where
  passing_yards : Option ℚ
  passing_tds : Option ℚ
  interceptions : Option ℚ
  rushing_yards : Option ℚ
  rushing_tds : Option ℚ
  receiving_yards : Option ℚ
  receiving_tds : Option ℚ
  receptions : Option ℚ
  fumbles_lost : Option ℚ
deriving DecidableEq

/-- The JS idiom `(x || 0)`: a missing (undefined/null) numeric field is
read as 0. -/
def jsOrZero (x : Option ℚ) : ℚ := x.getD 0

/-- JS `Math.round`: round to the nearest integer, halves toward +∞
(`Math.round(y) = ⌊y + 0.5⌋` on finite numbers). -/
def jsMathRound (y : ℚ) : ℤ := Int.floor (y + 1/2)

/-- The final line of `calculateFantasyPoints`:
`Math.round(points * 10) / 10` — round to one decimal place. -/
def roundTo1 (points : ℚ) : ℚ := (jsMathRound (points * 10) : ℚ) / 10

/-- Embedding of `dataUtils.calculateFantasyPoints` (src/unnamed/part_003,
lines 288–309).  The accumulator `points` is built up exactly in source
order; the reception multiplier is `isPPR ? 1 : 0.5`; the result is rounded
to one decimal. -/
def calculateFantasyPoints (player : PlayerStats) (isPPR : Bool) : ℚ :=
  let points : ℚ := 0
  let points := points + jsOrZero player.passing_yards * 0.04
  let points := points + jsOrZero player.passing_tds * 4
  let points := points + jsOrZero player.interceptions * (-1)
  let points := points + jsOrZero player.rushing_yards * 0.1
  let points := points + jsOrZero player.rushing_tds * 6
  let points := points + jsOrZero player.receiving_yards * 0.1
  let points := points + jsOrZero player.receiving_tds * 6
  let points := points + jsOrZero player.receptions * (if isPPR then 1 else 0.5)
  let points := points + jsOrZero player.fumbles_lost * (-1)
  roundTo1 points

/-- The scoring formula exactly as the spec states it (§4.2), with a free
`ppr_value`; used only to compare the source function against the spec's
words. -/
def specFantasyFormula (player : PlayerStats) (ppr_value : ℚ) : ℚ :=
  0.04 * jsOrZero player.passing_yards + 4 * jsOrZero player.passing_tds
    - 1 * jsOrZero player.interceptions + 0.1 * jsOrZero player.rushing_yards
    + 6 * jsOrZero player.rushing_tds + 0.1 * jsOrZero player.receiving_yards
    + 6 * jsOrZero player.receiving_tds + ppr_value * jsOrZero player.receptions
    - 1 * jsOrZero player.fumbles_lost

/-- A record with every stat absent. -/
def PlayerStats.blank : PlayerStats :=
  ⟨none, none, none, none, none, none, none, none, none⟩

/-- The spec's round-trip example record: 300 passing yards, 2 passing TDs,
1 interception, everything else zero. -/
def examplePlayer : PlayerStats :=
  { PlayerStats.blank with
    passing_yards := some 300, passing_tds := some 2, interceptions := some 1 }

/-- A record whose only nonzero stat is one passing yard. -/
def oneYardPlayer : PlayerStats :=
  { PlayerStats.blank with passing_yards := some 1 }

/-- A record whose only nonzero stat is `receptions = q`. -/
def receptionsOnly (q : ℚ) : PlayerStats :=
  { PlayerStats.blank with receptions := some q }

/-- The record `player` with every missing stat field replaced by an explicit 0. -/
def fillZeros (p : PlayerStats) : PlayerStats where
  passing_yards := some (jsOrZero p.passing_yards)
  passing_tds := some (jsOrZero p.passing_tds)
  interceptions := some (jsOrZero p.interceptions)
  rushing_yards := some (jsOrZero p.rushing_yards)
  rushing_tds := some (jsOrZero p.rushing_tds)
  receiving_yards := some (jsOrZero p.receiving_yards)
  receiving_tds := some (jsOrZero p.receiving_tds)
  receptions := some (jsOrZero p.receptions)
  fumbles_lost := some (jsOrZero p.fumbles_lost)

/-! ## The frontend read cache (`ApiCache`, src/unnamed/part_003 lines 10–44)

The two JS `Map`s become functions `String → Option _`; `Date.now()` becomes
an explicit `now : Nat` argument; the module constant `CACHE_TTL` (read from
the environment with default 300000 ms) is passed as the `ttl` argument. -/

structure ApiCache (V : Type) where
  cache : String → Option V
  timestamps : String → Option Nat

/-- The freshly-constructed cache: both maps empty. -/
def ApiCache.empty {V : Type} : ApiCache V :=
  ⟨fun _ => none, fun _ => none⟩

/-- Default value of `CACHE_TTL` (`parseInt(env) || 300000`). -/
def CACHE_TTL : Nat := 300000

/-- Embedding of `ApiCache.get` (lines 16–24).  The JS guard is
`!timestamp || Date.now() - timestamp > CACHE_TTL`; note `!timestamp` is
also true for a literal 0 timestamp (JS falsiness), which the embedding
keeps.  On an absent or expired timestamp the entry is deleted from both
maps and `null` is returned; otherwise the cached value is returned with
the cache untouched. -/
def ApiCache.get {V : Type} (c : ApiCache V) (ttl now : Nat) (key : String) :
    Option V × ApiCache V :=
  let expired : Bool :=
    match c.timestamps key with
    | none => true
    | some t => t == 0 || decide (ttl < now - t)
  if expired then
    (none,
     ⟨fun k => if k = key then none else c.cache k,
      fun k => if k = key then none else c.timestamps k⟩)
  else
    (c.cache key, c)

/-- Embedding of `ApiCache.set` (lines 26–29): store the value and stamp it
with the current time. -/
def ApiCache.set {V : Type} (c : ApiCache V) (key : String) (v : V) (now : Nat) :
    ApiCache V :=
  ⟨fun k => if k = key then some v else c.cache k,
   fun k => if k = key then some now else c.timestamps k⟩

/-- Embedding of `ApiCache.clear` (lines 31–34): both maps are emptied. -/
def ApiCache.clear {V : Type} (_c : ApiCache V) : ApiCache V :=
  ApiCache.empty

/-! ## Cache keys (`getCacheKey`, part_003 lines 90–99)

`Object.keys(params).sort().reduce(...)` sorts the parameter names and
rebuilds the object in sorted key order, then `new URLSearchParams(...)`
serializes it.  A JS object is an association list with pairwise-distinct
keys, in insertion order. -/

/-- Serialization `new URLSearchParams(obj).toString()` of an object already in its final
key order: `k1=v1&k2=v2&...` (percent-encoding is irrelevant to any claim
and omitted). -/
def serializeSearchParams (pairs : List (String × String)) : String :=
  String.intercalate "&" (pairs.map (fun p => p.1 ++ "=" ++ p.2))

/-- Embedding of `getCacheKey` (lines 90–99): sort the keys, map each to its
value in the params object, serialize after the url. -/
def getCacheKey (url : String) (params : List (String × String)) : String :=
  let sortedKeys := List.insertionSort (fun a b => a ≤ b) (params.map Prod.fst)
  let sortedParams := sortedKeys.map (fun k => (k, (params.lookup k).getD ""))
  url ++ "?" ++ serializeSearchParams sortedParams

/-! ## The generic request path (`apiRequest` and the axios interceptors,
part_003 lines 68–133) -/

/-- The raw axios failure reaching the response interceptor. -/
inductive AxiosFailure where
  | httpStatus (status : Nat) (msg : String)
  | connAborted (msg : String)
  | network (msg : String)
deriving DecidableEq

/-- The error an `apiRequest` caller can observe: an `Error` minted by the
response interceptor, or the original failure rethrown. -/
inductive ApiError where
  | wrapped (msg : String)
  | raw (e : AxiosFailure)
deriving DecidableEq

/-- Embedding of the response interceptor's error branch (lines 73–86):
404 becomes "Data not found", any 5xx becomes a server-error message,
`ECONNABORTED` becomes a timeout message, anything else is rethrown. -/
def interceptResponseError (e : AxiosFailure) : ApiError :=
  match e with
  | .httpStatus s m =>
      if s = 404 then ApiError.wrapped "Data not found"
      else if 500 ≤ s then ApiError.wrapped "Server error. Please try again later."
      else ApiError.raw (AxiosFailure.httpStatus s m)
  | .connAborted _ => ApiError.wrapped "Request timeout. Please check your connection."
  | .network m => ApiError.raw (AxiosFailure.network m)

/-- Embedding of `apiRequest` (lines 102–133) with `useCache = true` (the
default).  The network is an explicit argument: `net` is the axios GET
outcome, either a failure (routed through the interceptor) or a
`(status, data)` response.  A cache hit returns the cached data; a miss
performs the request, caches a 200 response, and returns its data; an error
is rethrown to the caller. -/
def apiRequest {V : Type} (c : ApiCache V) (ttl now : Nat) (url : String)
    (params : List (String × String)) (net : Except AxiosFailure (Nat × V)) :
    Except ApiError V × ApiCache V :=
  let key := getCacheKey url params
  match c.get ttl now key with
  | (some v, c1) => (Except.ok v, c1)
  | (none, c1) =>
    match net with
    | Except.ok (status, data) =>
        (Except.ok data, if status = 200 then c1.set key data now else c1)
    | Except.error e => (Except.error (interceptResponseError e), c1)

/-- Embedding of `apiService.refreshData` (lines 227–239): POST to
`/data/refresh`, then `cache.clear()`.  If the POST rejects, the `await`
throws and the clear is never reached. -/
def refreshData {V R : Type} (c : ApiCache V) (post : Except ApiError R) :
    Except ApiError R × ApiCache V :=
  match post with
  | Except.ok r => (Except.ok r, c.clear)
  | Except.error e => (Except.error e, c)

/-! ## Warehouse Store (spec §3/§4.3)

The repository ships no backend source (src/ holds only the frontend and
documentation), so the Warehouse Store is modelled from the spec. -/

/-- Modelled from the spec: a §3 `WeeklyRecord` — identity plus the derived
fantasy score; the remaining stat fields are irrelevant to the commit
claims. -/
structure WeeklyRecord where
  player_id : Nat
  name : String
  position : String
  team : String
  season : Nat
  week : Nat
  fantasy_points : ℚ
deriving DecidableEq

/-- Modelled from the spec (§7): the `StoreError` taxon raised by a failed
commit. -/
inductive StoreError where
  | writeFailed
deriving DecidableEq

/-- Modelled from the spec: the Warehouse Store's weekly table, read by its
(season, week) unit key. -/
def Store : Type := Nat × Nat → List WeeklyRecord

/-- The store with nothing committed. -/
def Store.emptyStore : Store := fun _ => []

/-- Modelled from the spec (§4.3, §8 Atomicity): rows of one unit are staged
one at a time before the atomic install.  `failAfter = some n` simulates the
write being interrupted after `n` rows; if the interruption strikes before
the rows run out, the whole staging is lost (`none`). -/
def stageRows : List WeeklyRecord → Option Nat → Option (List WeeklyRecord)
  | [], _ => some []
  | _ :: _, some 0 => none
  | r :: rs, some (n + 1) => (stageRows rs (some n)).map (fun s => r :: s)
  | r :: rs, none => (stageRows rs none).map (fun s => r :: s)

/-- Modelled from the spec: `Store.commit(RefreshUnit, rows)` (§4.3).  The
staged rows are installed for the unit key in one atomic step (an upsert:
prior rows for that exact key are replaced); if staging was interrupted it
is discarded — the store is returned unchanged — and a `StoreError` is
raised. -/
def Store.commit (st : Store) (unit : Nat × Nat) (rows : List WeeklyRecord)
    (failAfter : Option Nat) : Store × Option StoreError :=
  match stageRows rows failAfter with
  | none => (st, some StoreError.writeFailed)
  | some staged => (fun k => if k = unit then staged else st k, none)

/-! ## Query Façade (spec §4.6, §7)

Also absent from src/ (the backend routes are not in the repository);
modelled from the spec.  The frontend half of the query path (`apiRequest`)
is embedded from source above. -/

/-- Modelled from the spec (§6): the query parameters relevant to a weekly
read — season, week, optional position and team filters. -/
structure QueryParams where
  season : Nat
  week : Nat
  position : Option String
  team : Option String
deriving DecidableEq

/-- Row-level filter match for a query. -/
def matchesFilters (p : QueryParams) (r : WeeklyRecord) : Bool :=
  (match p.position with
   | none => true
   | some pos => pos == r.position)
  && (match p.team with
      | none => true
      | some t => t == r.team)

/-- Modelled from the spec (§4.6/§7): the Query Façade's weekly read path is
a total function of the committed state — it returns whatever rows are
currently committed for the requested unit and filters, possibly zero rows,
and has no failure outcome. -/
def queryFacade (st : Store) (p : QueryParams) : List WeeklyRecord :=
  (st (p.season, p.week)).filter (matchesFilters p)

/-- Modelled from the spec (§7): the HTTP query route always answers a query
with status 200 and the façade's rows — absent data yields zero rows, never
an error status. -/
def serverRespond (st : Store) (p : QueryParams) : Nat × List WeeklyRecord :=
  (200, queryFacade st p)

/-! ## Multi-week aggregation (`AggregateDataTable.fetchData`,
src/unnamed/part_010 lines 121–181)

The server hands back, per player, a `weeks` array whose entries may be
null/undefined and whose nested stat groups (`misc`, `passing`, `rushing`,
`receiving`) and their fields may each be absent — hence `Option` at every
level.  `week.passing?.cmpAtt`, a string like "20-30" split and parsed by
the source, is embedded as the already-parsed `(completions, attempts)`
pair. -/

structure MiscStats where
  fpts : Option ℚ
  num : Option ℚ
deriving DecidableEq

structure PassingWeek where
  yds : Option ℚ
  td : Option ℚ
  int : Option ℚ
  cmpAtt : Option (ℚ × ℚ)
deriving DecidableEq

structure RushingWeek where
  att : Option ℚ
  yds : Option ℚ
  td : Option ℚ
deriving DecidableEq

structure ReceivingWeek where
  tgts : Option ℚ
  recs : Option ℚ
  yds : Option ℚ
  td : Option ℚ
deriving DecidableEq

/-- One entry of a player's `weeks` array (source field `rec` is rendered
`recs`: Lean reserves `rec` for recursors). -/
structure WeekStats where
  misc : Option MiscStats
  passing : Option PassingWeek
  rushing : Option RushingWeek
  receiving : Option ReceivingWeek
deriving DecidableEq

/-- The JS read `week?.group?.field || 0` for a possibly-null week. -/
def weekVal (f : WeekStats → Option ℚ) (ow : Option WeekStats) : ℚ :=
  match ow with
  | none => 0
  | some w => jsOrZero (f w)

def weekFpts : Option WeekStats → ℚ := weekVal (fun w => w.misc.bind MiscStats.fpts)
def weekSnaps : Option WeekStats → ℚ := weekVal (fun w => w.misc.bind MiscStats.num)
def weekPassYds : Option WeekStats → ℚ := weekVal (fun w => w.passing.bind PassingWeek.yds)
def weekPassTd : Option WeekStats → ℚ := weekVal (fun w => w.passing.bind PassingWeek.td)
def weekInt : Option WeekStats → ℚ := weekVal (fun w => w.passing.bind PassingWeek.int)
def weekCmp : Option WeekStats → ℚ :=
  weekVal (fun w => (w.passing.bind PassingWeek.cmpAtt).map Prod.fst)
def weekAtt : Option WeekStats → ℚ :=
  weekVal (fun w => (w.passing.bind PassingWeek.cmpAtt).map Prod.snd)
def weekRushAtt : Option WeekStats → ℚ := weekVal (fun w => w.rushing.bind RushingWeek.att)
def weekRushYds : Option WeekStats → ℚ := weekVal (fun w => w.rushing.bind RushingWeek.yds)
def weekRushTd : Option WeekStats → ℚ := weekVal (fun w => w.rushing.bind RushingWeek.td)
def weekTgts : Option WeekStats → ℚ := weekVal (fun w => w.receiving.bind ReceivingWeek.tgts)
def weekRec : Option WeekStats → ℚ := weekVal (fun w => w.receiving.bind ReceivingWeek.recs)
def weekRecYds : Option WeekStats → ℚ := weekVal (fun w => w.receiving.bind ReceivingWeek.yds)
def weekRecTd : Option WeekStats → ℚ := weekVal (fun w => w.receiving.bind ReceivingWeek.td)

/-- The running accumulators declared on part_010 lines 127–130. -/
structure Totals where
  totalFpts : ℚ
  totalSnaps : ℚ
  totalPassYds : ℚ
  totalPassTd : ℚ
  totalInt : ℚ
  totalCmp : ℚ
  totalAtt : ℚ
  totalRushAtt : ℚ
  totalRushYds : ℚ
  totalRushTd : ℚ
  totalTgts : ℚ
  totalRec : ℚ
  totalRecYds : ℚ
  totalRecTd : ℚ
deriving DecidableEq

def Totals.zero : Totals := ⟨0, 0, 0, 0, 0, 0, 0, 0, 0, 0, 0, 0, 0, 0⟩

/-- The body of `weeks.forEach(week => ...)` (lines 132–155): a falsy week
is skipped (`if (!week) return`), otherwise every accumulator grows by the
week's defaulted field value. -/
def addWeek (acc : Totals) (ow : Option WeekStats) : Totals :=
  match ow with
  | none => acc
  | some w =>
    { totalFpts := acc.totalFpts + jsOrZero (w.misc.bind MiscStats.fpts)
      totalSnaps := acc.totalSnaps + jsOrZero (w.misc.bind MiscStats.num)
      totalPassYds := acc.totalPassYds + jsOrZero (w.passing.bind PassingWeek.yds)
      totalPassTd := acc.totalPassTd + jsOrZero (w.passing.bind PassingWeek.td)
      totalInt := acc.totalInt + jsOrZero (w.passing.bind PassingWeek.int)
      totalCmp := acc.totalCmp + jsOrZero ((w.passing.bind PassingWeek.cmpAtt).map Prod.fst)
      totalAtt := acc.totalAtt + jsOrZero ((w.passing.bind PassingWeek.cmpAtt).map Prod.snd)
      totalRushAtt := acc.totalRushAtt + jsOrZero (w.rushing.bind RushingWeek.att)
      totalRushYds := acc.totalRushYds + jsOrZero (w.rushing.bind RushingWeek.yds)
      totalRushTd := acc.totalRushTd + jsOrZero (w.rushing.bind RushingWeek.td)
      totalTgts := acc.totalTgts + jsOrZero (w.receiving.bind ReceivingWeek.tgts)
      totalRec := acc.totalRec + jsOrZero (w.receiving.bind ReceivingWeek.recs)
      totalRecYds := acc.totalRecYds + jsOrZero (w.receiving.bind ReceivingWeek.yds)
      totalRecTd := acc.totalRecTd + jsOrZero (w.receiving.bind ReceivingWeek.td) }

/-- The games-played filter (line 124):
`w && (w.misc?.fpts > 0 || w.rushing?.yds > 0 || w.receiving?.yds > 0 ||
w.passing?.yds > 0)` — in JS a comparison against an absent field is false,
which coincides with comparing the 0-defaulted value. -/
def countsAsGame (ow : Option WeekStats) : Bool :=
  match ow with
  | none => false
  | some w =>
      decide (0 < jsOrZero (w.misc.bind MiscStats.fpts))
      || decide (0 < jsOrZero (w.rushing.bind RushingWeek.yds))
      || decide (0 < jsOrZero (w.receiving.bind ReceivingWeek.yds))
      || decide (0 < jsOrZero (w.passing.bind PassingWeek.yds))

/-- One aggregated output row (lines 157–180).  The `cmpAtt` display string
`totalAtt > 0 ? "cmp-att" : "-"` is kept as the optional pair it renders. -/
structure AggRow where
  games : Nat
  avgFpts : ℚ
  totalFpts : ℚ
  avgSnaps : ℚ
  cmpAtt : Option (ℚ × ℚ)
  passYds : ℚ
  passTd : ℚ
  int : ℚ
  rushAtt : ℚ
  rushYds : ℚ
  rushTd : ℚ
  tgts : ℚ
  recs : ℚ
  recYds : ℚ
  recTd : ℚ
deriving DecidableEq

/-- The per-player body of `rawData.map(player => ...)` (lines 122–181):
count games played, accumulate the running totals over the weeks array, and
derive the averages with an explicit zero-games guard. -/
def aggregatePlayer (weeks : List (Option WeekStats)) : AggRow :=
  let gamesPlayed := (weeks.filter countsAsGame).length
  let t := weeks.foldl addWeek Totals.zero
  { games := gamesPlayed
    avgFpts := if 0 < gamesPlayed then t.totalFpts / gamesPlayed else 0
    totalFpts := t.totalFpts
    avgSnaps := if 0 < gamesPlayed then t.totalSnaps / gamesPlayed else 0
    cmpAtt := if 0 < t.totalAtt then some (t.totalCmp, t.totalAtt) else none
    passYds := t.totalPassYds
    passTd := t.totalPassTd
    int := t.totalInt
    rushAtt := t.totalRushAtt
    rushYds := t.totalRushYds
    rushTd := t.totalRushTd
    tgts := t.totalTgts
    recs := t.totalRec
    recYds := t.totalRecYds
    recTd := t.totalRecTd }

/-! ## Sample data for concrete instantiations -/

def sampleRecord : WeeklyRecord :=
  ⟨1, "A", "QB", "KC", 2025, 2, 10⟩

def sampleRecord2 : WeeklyRecord :=
  ⟨2, "B", "RB", "SF", 2025, 2, 7⟩

def priorRecord : WeeklyRecord :=
  ⟨3, "C", "WR", "DAL", 2025, 1, 12⟩

/-- A store with week 1 of season 2025 already committed. -/
def sampleStore : Store :=
  fun k => if k = (2025, 1) then [priorRecord] else []

/-- A played week: 5 fantasy points, 10 snaps, no other stats. -/
def snapWeek : WeekStats :=
  ⟨some ⟨some 5, some 10⟩, none, none, none⟩

/-! ## Rounding lemmas -/

theorem jsMathRound_intCast (z : ℤ) : jsMathRound (z : ℚ) = z := by
  unfold jsMathRound
  rw [Int.floor_eq_iff]
  constructor <;> [skip; push_cast] <;> norm_num

/-- If `q` has at most one decimal digit (`10 q` is an integer), rounding to
one decimal leaves it unchanged. -/
theorem roundTo1_eq_self (q : ℚ) (z : ℤ) (h : q * 10 = (z : ℚ)) : roundTo1 q = q := by
  unfold roundTo1
  rw [h, jsMathRound_intCast]
  field_simp at h ⊢
  linarith

/-! ## C1: the fantasy-point formula -/

/-- C1 (corrected).  `calculateFantasyPoints` does not return the spec's
formula value exactly: it returns that value — with the reception multiplier
1 when `isPPR` and 0.5 otherwise — rounded to one decimal place
(`Math.round(points * 10) / 10`).  The spec's 300-yard/2-TD/1-INT example
still evaluates to 19.0, since 19 is already one-decimal exact. -/
theorem C1_fantasyPoints_rounded_formula :
    (∀ (p : PlayerStats) (isPPR : Bool),
      calculateFantasyPoints p isPPR
        = roundTo1 (specFantasyFormula p (if isPPR then 1 else 0.5)))
    ∧ calculateFantasyPoints examplePlayer true = 19 := by
  refine ⟨fun p isPPR => ?_, ?_⟩
  · cases isPPR <;>
      · simp only [calculateFantasyPoints, specFantasyFormula, Bool.false_eq_true,
          if_true, if_false]
        congr 1
        ring
  · norm_num [calculateFantasyPoints, roundTo1, jsMathRound, jsOrZero, examplePlayer,
      PlayerStats.blank]

/-- C1 counterexample: for a record whose only stat is one passing yard, the
spec formula gives 0.04 but `calculateFantasyPoints` returns 0 — the claimed
exact, approximation-free equality fails. -/
theorem C1_counterexample :
    calculateFantasyPoints oneYardPlayer true ≠ specFantasyFormula oneYardPlayer 1
    ∧ calculateFantasyPoints oneYardPlayer true = 0
    ∧ specFantasyFormula oneYardPlayer 1 = 1 / 25 := by
  norm_num [calculateFantasyPoints, specFantasyFormula, roundTo1, jsMathRound,
    jsOrZero, oneYardPlayer, PlayerStats.blank]

/-! ## C8: missing inputs are zero -/

/-- C8 (confirmed).  Replacing every missing stat field by an explicit 0
does not change the computed score: the `(x || 0)` defaulting makes a record
with missing fields score exactly like its zero-filled counterpart.  (In the
embedding the function is total into ℚ, mirroring that the `|| 0` defaults
keep `undefined`/`NaN` out of the arithmetic.) -/
theorem C8_missing_stats_as_zero (p : PlayerStats) (isPPR : Bool) :
    calculateFantasyPoints p isPPR = calculateFantasyPoints (fillZeros p) isPPR := by
  simp [calculateFantasyPoints, fillZeros, jsOrZero]

/-! ## C6: the PPR multiplier domain -/

/-- C6 (corrected).  The PPR setting of `calculateFantasyPoints` is the
boolean `isPPR`, giving multiplier 1 (true) or 0.5 (false); there is no
0.0 (standard) mode, and a record whose only nonzero stat is `n ≥ 1`
receptions scores `n` or `n / 2` — strictly positive in every supported
configuration, never 0. -/
theorem C6_reception_scoring (n : ℕ) (h : 1 ≤ n) :
    calculateFantasyPoints (receptionsOnly (n : ℚ)) true = (n : ℚ)
    ∧ calculateFantasyPoints (receptionsOnly (n : ℚ)) false = (n : ℚ) / 2
    ∧ 0 < calculateFantasyPoints (receptionsOnly (n : ℚ)) true
    ∧ 0 < calculateFantasyPoints (receptionsOnly (n : ℚ)) false := by
  have hq : (1 : ℚ) ≤ (n : ℚ) := by exact_mod_cast h
  have htrue : calculateFantasyPoints (receptionsOnly (n : ℚ)) true = (n : ℚ) := by
    have hr : calculateFantasyPoints (receptionsOnly (n : ℚ)) true = roundTo1 (n : ℚ) := by
      simp [calculateFantasyPoints, receptionsOnly, PlayerStats.blank, jsOrZero]
    rw [hr]
    exact roundTo1_eq_self _ (10 * (n : ℤ)) (by push_cast; ring)
  have hfalse : calculateFantasyPoints (receptionsOnly (n : ℚ)) false = (n : ℚ) / 2 := by
    have hr : calculateFantasyPoints (receptionsOnly (n : ℚ)) false
        = roundTo1 ((n : ℚ) * 0.5) := by
      simp [calculateFantasyPoints, receptionsOnly, PlayerStats.blank, jsOrZero]
    rw [hr]
    have hv : (n : ℚ) * 0.5 = (n : ℚ) / 2 := by norm_num; ring
    rw [hv]
    exact roundTo1_eq_self _ (5 * (n : ℤ)) (by push_cast; ring)
  refine ⟨htrue, hfalse, ?_, ?_⟩
  · rw [htrue]; linarith
  · rw [hfalse]; linarith

/-- C6 counterexample: a record with 10 receptions and nothing else scores
10 under `isPPR = true` and 5 under `isPPR = false` — nonzero under both of
the only two settings the function accepts, so no supported configuration
realizes the claimed 0.0 (standard) scoring. -/
theorem C6_counterexample :
    calculateFantasyPoints (receptionsOnly 10) true = 10
    ∧ calculateFantasyPoints (receptionsOnly 10) false = 5
    ∧ calculateFantasyPoints (receptionsOnly 10) true ≠ 0
    ∧ calculateFantasyPoints (receptionsOnly 10) false ≠ 0 := by
  norm_num [calculateFantasyPoints, roundTo1, jsMathRound, jsOrZero, receptionsOnly,
    PlayerStats.blank]

/-- Witness for C6: instantiating the corrected statement at one reception. -/
theorem C6_reception_scoring_witness :
    1 ≤ 1
    ∧ (calculateFantasyPoints (receptionsOnly ((1 : ℕ) : ℚ)) true = ((1 : ℕ) : ℚ)
       ∧ calculateFantasyPoints (receptionsOnly ((1 : ℕ) : ℚ)) false = ((1 : ℕ) : ℚ) / 2
       ∧ 0 < calculateFantasyPoints (receptionsOnly ((1 : ℕ) : ℚ)) true
       ∧ 0 < calculateFantasyPoints (receptionsOnly ((1 : ℕ) : ℚ)) false) :=
  ⟨Nat.le_refl 1, C6_reception_scoring 1 (Nat.le_refl 1)⟩

/-! ## C4: refresh invalidates the whole read cache -/

/-- C4 (confirmed).  When the refresh POST resolves, `refreshData` clears the
cache wholesale: afterwards both maps hold nothing for any key, any `get`
misses, and a subsequent `apiRequest` goes to the network and returns the
freshly computed response rather than anything cached before the commit. -/
theorem C4_refresh_clears_cache {V R : Type} (c : ApiCache V) (r : R)
    (ttl now : Nat) (k url : String) (qp : List (String × String)) (d : V) :
    (refreshData c (Except.ok r)).2.cache k = none
    ∧ (refreshData c (Except.ok r)).2.timestamps k = none
    ∧ ((refreshData c (Except.ok r)).2.get ttl now k).1 = none
    ∧ (refreshData c (Except.ok r)).1 = Except.ok r
    ∧ (apiRequest (refreshData c (Except.ok r)).2 ttl now url qp
        (Except.ok (200, d))).1 = Except.ok d := by
  refine ⟨rfl, rfl, ?_, rfl, ?_⟩
  · simp [refreshData, ApiCache.clear, ApiCache.empty, ApiCache.get]
  · simp [refreshData, ApiCache.clear, ApiCache.empty, ApiCache.get, apiRequest]

/-! ## C5: lazy TTL expiration -/

/-- C5 (confirmed).  A `get` strictly more than `ttl` after the `set` returns
`null` and deletes the entry from both maps on that `get`; a `get` for a key
with no timestamp also returns `null`. -/
theorem C5_ttl_expiry {V : Type} (c : ApiCache V) (key k2 : String) (v : V)
    (t now ttl : Nat) (hexp : ttl < now - t) (hns : c.timestamps k2 = none) :
    (((c.set key v t).get ttl now key).1 = none
      ∧ ((c.set key v t).get ttl now key).2.cache key = none
      ∧ ((c.set key v t).get ttl now key).2.timestamps key = none)
    ∧ (c.get ttl now k2).1 = none := by
  constructor
  · simp [ApiCache.get, ApiCache.set, hexp]
  · simp [ApiCache.get, hns]

/-- Witness for C5: a value set at time 1 and read at `CACHE_TTL + 2` (one
millisecond past its TTL) is gone, and the never-set key "b" reads as
absent. -/
theorem C5_ttl_expiry_witness :
    (CACHE_TTL < (CACHE_TTL + 2) - 1
     ∧ (ApiCache.empty : ApiCache Nat).timestamps "b" = none)
    ∧ (((((ApiCache.empty : ApiCache Nat).set "a" 0 1).get CACHE_TTL (CACHE_TTL + 2) "a").1 = none
        ∧ (((ApiCache.empty : ApiCache Nat).set "a" 0 1).get CACHE_TTL (CACHE_TTL + 2) "a").2.cache "a" = none
        ∧ (((ApiCache.empty : ApiCache Nat).set "a" 0 1).get CACHE_TTL (CACHE_TTL + 2) "a").2.timestamps "a" = none)
       ∧ ((ApiCache.empty : ApiCache Nat).get CACHE_TTL (CACHE_TTL + 2) "b").1 = none) :=
  ⟨⟨by decide, rfl⟩,
   C5_ttl_expiry ApiCache.empty "a" "b" 0 1 (CACHE_TTL + 2) CACHE_TTL (by decide) rfl⟩

/-! ## C7: the query path has no failure outcome -/

/-- C7 (confirmed, spec-modelled backend).  A query against the (spec-
modelled) façade always produces a 200 response whose body is the currently
committed rows — possibly zero of them — and the embedded frontend
`apiRequest` turns that into a normal `Except.ok` result for the caller:
the cached value on a hit, the fresh façade rows on a miss.  No error is
ever raised on this path, whatever the store holds. -/
theorem C7_query_never_errors (st : Store) (p : QueryParams)
    (c : ApiCache (List WeeklyRecord)) (ttl now : Nat) (url : String)
    (qp : List (String × String)) :
    (apiRequest c ttl now url qp (Except.ok (serverRespond st p))).1
      = Except.ok (((c.get ttl now (getCacheKey url qp)).1).getD (queryFacade st p)) := by
  rcases hg : c.get ttl now (getCacheKey url qp) with ⟨ov, c1⟩
  cases ov <;> simp [apiRequest, serverRespond, hg]

/-! ## C2: commit atomicity -/

theorem stageRows_eq_none (rows : List WeeklyRecord) (n : Nat)
    (h : n < rows.length) : stageRows rows (some n) = none := by
  induction rows generalizing n with
  | nil => simp at h
  | cons r rs ih =>
    cases n with
    | zero => rfl
    | succ m =>
      have hm : m < rs.length := by simpa using h
      simp [stageRows, ih m hm]

/-- C2 (confirmed, spec-modelled).  A commit interrupted after `n < M` of
its `M` rows discards the staging: the resulting store is exactly the
pre-commit store — none of the `n` written rows are observable under any
key, all previously committed data is intact — and a `StoreError` is
raised. -/
theorem C2_commit_atomicity (st : Store) (unit : Nat × Nat)
    (rows : List WeeklyRecord) (n : Nat) (h : n < rows.length) :
    (st.commit unit rows (some n)).1 = st
    ∧ (st.commit unit rows (some n)).2 = some StoreError.writeFailed := by
  unfold Store.commit
  rw [stageRows_eq_none rows n h]
  exact ⟨rfl, rfl⟩

/-- Witness for C2: committing two week-2 rows into a store already holding
week 1, with a simulated interruption after the first row, leaves the store
exactly as before and surfaces the error. -/
theorem C2_commit_atomicity_witness :
    1 < [sampleRecord, sampleRecord2].length
    ∧ ((sampleStore.commit (2025, 2) [sampleRecord, sampleRecord2] (some 1)).1 = sampleStore
       ∧ (sampleStore.commit (2025, 2) [sampleRecord, sampleRecord2] (some 1)).2
           = some StoreError.writeFailed) :=
  ⟨by decide,
   C2_commit_atomicity sampleStore (2025, 2) [sampleRecord, sampleRecord2] 1 (by decide)⟩

/-! ## C3 and C10: the multi-week aggregation -/

/-- The `forEach` accumulation computes, in each accumulator, the sum of the
corresponding defaulted weekly values. -/
theorem foldl_addWeek (weeks : List (Option WeekStats)) (acc : Totals) :
    weeks.foldl addWeek acc =
      { totalFpts := acc.totalFpts + (weeks.map weekFpts).sum
        totalSnaps := acc.totalSnaps + (weeks.map weekSnaps).sum
        totalPassYds := acc.totalPassYds + (weeks.map weekPassYds).sum
        totalPassTd := acc.totalPassTd + (weeks.map weekPassTd).sum
        totalInt := acc.totalInt + (weeks.map weekInt).sum
        totalCmp := acc.totalCmp + (weeks.map weekCmp).sum
        totalAtt := acc.totalAtt + (weeks.map weekAtt).sum
        totalRushAtt := acc.totalRushAtt + (weeks.map weekRushAtt).sum
        totalRushYds := acc.totalRushYds + (weeks.map weekRushYds).sum
        totalRushTd := acc.totalRushTd + (weeks.map weekRushTd).sum
        totalTgts := acc.totalTgts + (weeks.map weekTgts).sum
        totalRec := acc.totalRec + (weeks.map weekRec).sum
        totalRecYds := acc.totalRecYds + (weeks.map weekRecYds).sum
        totalRecTd := acc.totalRecTd + (weeks.map weekRecTd).sum } := by
  induction weeks generalizing acc with
  | nil => simp
  | cons ow rest ih =>
    rw [List.foldl_cons, ih]
    cases ow <;>
      simp [addWeek, weekFpts, weekSnaps, weekPassYds, weekPassTd, weekInt, weekCmp,
        weekAtt, weekRushAtt, weekRushYds, weekRushTd, weekTgts, weekRec, weekRecYds,
        weekRecTd, weekVal, add_assoc]

/-- C3 counterexample: over two played weeks of 10 snaps each the weekly
snap sum is 20, but the returned row carries snaps only as the per-game
average `avgSnaps`, which is 10 here — the claimed snaps total, equal to the
sum of the weekly snap values, is not what the record carries. -/
theorem C3_counterexample :
    (([some snapWeek, some snapWeek] : List (Option WeekStats)).map weekSnaps).sum = 20
    ∧ (aggregatePlayer [some snapWeek, some snapWeek]).avgSnaps = 10
    ∧ (aggregatePlayer [some snapWeek, some snapWeek]).avgSnaps
        ≠ (([some snapWeek, some snapWeek] : List (Option WeekStats)).map weekSnaps).sum := by
  norm_num [aggregatePlayer, addWeek, Totals.zero, weekSnaps, weekFpts, weekVal,
    jsOrZero, snapWeek, countsAsGame, List.filter]

/-- C3 (corrected).  Aggregating a multi-week range gives, per player, exact
per-stat sums of the weekly values over the range — fantasy points, passing,
rushing and receiving stats — a null/absent week (or absent field)
contributing zero (`weekVal f none = 0`).  Snaps, however, are carried only
as a per-game average, never as a total: `avgSnaps` (like `avgFpts`) is the
corresponding weekly sum divided by the games count, 0 when no games. -/
theorem C3_cumulative_range (weeks : List (Option WeekStats)) :
    (aggregatePlayer weeks).totalFpts = (weeks.map weekFpts).sum
    ∧ (aggregatePlayer weeks).passYds = (weeks.map weekPassYds).sum
    ∧ (aggregatePlayer weeks).passTd = (weeks.map weekPassTd).sum
    ∧ (aggregatePlayer weeks).int = (weeks.map weekInt).sum
    ∧ (aggregatePlayer weeks).rushAtt = (weeks.map weekRushAtt).sum
    ∧ (aggregatePlayer weeks).rushYds = (weeks.map weekRushYds).sum
    ∧ (aggregatePlayer weeks).rushTd = (weeks.map weekRushTd).sum
    ∧ (aggregatePlayer weeks).tgts = (weeks.map weekTgts).sum
    ∧ (aggregatePlayer weeks).recs = (weeks.map weekRec).sum
    ∧ (aggregatePlayer weeks).recYds = (weeks.map weekRecYds).sum
    ∧ (aggregatePlayer weeks).recTd = (weeks.map weekRecTd).sum
    ∧ (aggregatePlayer weeks).avgFpts
        = (if 0 < (aggregatePlayer weeks).games
           then (weeks.map weekFpts).sum / (aggregatePlayer weeks).games else 0)
    ∧ (aggregatePlayer weeks).avgSnaps
        = (if 0 < (aggregatePlayer weeks).games
           then (weeks.map weekSnaps).sum / (aggregatePlayer weeks).games else 0)
    ∧ (∀ f, weekVal f none = 0) := by
  simp [aggregatePlayer, foldl_addWeek, Totals.zero, weekVal]

/-- C10 (confirmed).  A week with no positive fantasy points and no positive
passing, rushing or receiving yards is not counted as a game played;
`avgFpts` and `avgSnaps` are the corresponding sums divided by the games
count when it is positive, and exactly 0 when it is 0 — total functions,
with no division-by-zero failure. -/
theorem C10_games_played_guard (weeks : List (Option WeekStats))
    (ow : Option WeekStats)
    (hz : weekFpts ow ≤ 0 ∧ weekPassYds ow ≤ 0 ∧ weekRushYds ow ≤ 0
      ∧ weekRecYds ow ≤ 0) :
    (aggregatePlayer (ow :: weeks)).games = (aggregatePlayer weeks).games
    ∧ ((aggregatePlayer weeks).games = 0 →
        (aggregatePlayer weeks).avgFpts = 0 ∧ (aggregatePlayer weeks).avgSnaps = 0)
    ∧ (0 < (aggregatePlayer weeks).games →
        (aggregatePlayer weeks).avgFpts
          = (aggregatePlayer weeks).totalFpts / (aggregatePlayer weeks).games
        ∧ (aggregatePlayer weeks).avgSnaps
          = (weeks.map weekSnaps).sum / (aggregatePlayer weeks).games) := by
  obtain ⟨h1, h2, h3, h4⟩ := hz
  have hng : countsAsGame ow = false := by
    cases ow with
    | none => rfl
    | some w =>
      simp only [weekFpts, weekPassYds, weekRushYds, weekRecYds, weekVal] at h1 h2 h3 h4
      simp only [countsAsGame, Bool.or_eq_false_iff, decide_eq_false_iff_not, not_lt]
      exact ⟨⟨⟨h1, h3⟩, h4⟩, h2⟩
  refine ⟨?_, ?_, ?_⟩
  · simp [aggregatePlayer, List.filter_cons, hng]
  · intro h0
    have hg : (List.filter countsAsGame weeks).length = 0 := by
      simpa [aggregatePlayer] using h0
    simp [aggregatePlayer, hg]
  · intro hpos
    have hg : 0 < (List.filter countsAsGame weeks).length := by
      simpa [aggregatePlayer] using hpos
    simp [aggregatePlayer, hg, foldl_addWeek, Totals.zero]

/-- Witness for C10: a null week entry prepended to an empty range. -/
theorem C10_games_played_guard_witness :
    (weekFpts none ≤ 0 ∧ weekPassYds none ≤ 0 ∧ weekRushYds none ≤ 0
      ∧ weekRecYds none ≤ 0)
    ∧ ((aggregatePlayer [(none : Option WeekStats)]).games = (aggregatePlayer []).games
       ∧ ((aggregatePlayer ([] : List (Option WeekStats))).games = 0 →
           (aggregatePlayer ([] : List (Option WeekStats))).avgFpts = 0
           ∧ (aggregatePlayer ([] : List (Option WeekStats))).avgSnaps = 0)
       ∧ (0 < (aggregatePlayer ([] : List (Option WeekStats))).games →
           (aggregatePlayer ([] : List (Option WeekStats))).avgFpts
             = (aggregatePlayer ([] : List (Option WeekStats))).totalFpts
                 / (aggregatePlayer ([] : List (Option WeekStats))).games
           ∧ (aggregatePlayer ([] : List (Option WeekStats))).avgSnaps
             = (([] : List (Option WeekStats)).map weekSnaps).sum
                 / (aggregatePlayer ([] : List (Option WeekStats))).games)) :=
  ⟨⟨le_refl 0, le_refl 0, le_refl 0, le_refl 0⟩,
   C10_games_played_guard [] none ⟨le_refl 0, le_refl 0, le_refl 0, le_refl 0⟩⟩

/-! ## C9: cache keys are insertion-order independent -/

/-- On association lists with pairwise-distinct keys, `lookup` is invariant
under permutation. -/
theorem lookup_eq_of_perm {β : Type} {l₁ l₂ : List (String × β)}
    (h : l₁.Perm l₂) :
    (l₁.map Prod.fst).Nodup → ∀ k, l₁.lookup k = l₂.lookup k := by
  induction h with
  | nil =>
    intro _ k
    rfl
  | cons x h ih =>
    intro hnd k
    obtain ⟨xk, xv⟩ := x
    rw [List.map_cons] at hnd
    have hnd' := hnd.of_cons
    cases hk : (k == xk) <;>
      simp [List.lookup_cons, hk, ih hnd' k]
  | swap x y l =>
    intro hnd k
    obtain ⟨xk, xv⟩ := x
    obtain ⟨yk, yv⟩ := y
    rw [List.map_cons, List.map_cons] at hnd
    obtain ⟨hy, _⟩ := List.nodup_cons.mp hnd
    have hyx : yk ≠ xk := fun he => hy (by simp [he])
    cases hky : (k == yk) <;> cases hkx : (k == xk) <;>
      simp [List.lookup_cons, hky, hkx]
    exact absurd ((eq_of_beq hky).symm.trans (eq_of_beq hkx)) hyx
  | trans h₁ h₂ ih₁ ih₂ =>
    intro hnd k
    exact (ih₁ hnd k).trans (ih₂ ((h₁.map Prod.fst).nodup hnd) k)

/-- C9 (confirmed).  Two parameter objects holding the same key-to-value
bindings in any insertion order (a JS object's keys are pairwise distinct)
produce the identical cache-key string: `getCacheKey` sorts the keys and
reads each value by key, so insertion order cannot leak into the key. -/
theorem C9_cacheKey_order_independent (url : String)
    (p₁ p₂ : List (String × String)) (hperm : p₁.Perm p₂)
    (hnd : (p₁.map Prod.fst).Nodup) :
    getCacheKey url p₁ = getCacheKey url p₂ := by
  unfold getCacheKey
  have hs₁ : List.Sorted (fun a b : String => a ≤ b)
      (List.insertionSort (fun a b => a ≤ b) (p₁.map Prod.fst)) :=
    List.sorted_insertionSort _ _
  have hs₂ : List.Sorted (fun a b : String => a ≤ b)
      (List.insertionSort (fun a b => a ≤ b) (p₂.map Prod.fst)) :=
    List.sorted_insertionSort _ _
  have hp : (List.insertionSort (fun a b => a ≤ b) (p₁.map Prod.fst)).Perm
      (List.insertionSort (fun a b => a ≤ b) (p₂.map Prod.fst)) :=
    (List.perm_insertionSort _ _).trans
      ((hperm.map Prod.fst).trans (List.perm_insertionSort _ _).symm)
  have hkeys := List.eq_of_perm_of_sorted hp hs₁ hs₂
  rw [hkeys]
  have hlk := lookup_eq_of_perm hperm hnd
  simp only [hlk]

/-- Witness for C9: the two-entry objects `{b: 2, a: 1}` and `{a: 1, b: 2}`
address the same cache entry. -/
theorem C9_cacheKey_order_independent_witness :
    (([("b", "2"), ("a", "1")] : List (String × String)).Perm
        [("a", "1"), ("b", "2")]
     ∧ (([("b", "2"), ("a", "1")] : List (String × String)).map Prod.fst).Nodup)
    ∧ getCacheKey "/players/weekly-stats" [("b", "2"), ("a", "1")]
        = getCacheKey "/players/weekly-stats" [("a", "1"), ("b", "2")] :=
  ⟨⟨List.Perm.swap ("a", "1") ("b", "2") [], by decide⟩,
   C9_cacheKey_order_independent "/players/weekly-stats" _ _
     (List.Perm.swap ("a", "1") ("b", "2") []) (by decide)⟩

end NflData
